import Mathlib

/-!
Verification development for the babylon provider layer
(`babylon/providers/*.py`): a provider-agnostic chat-completion contract
(`LLMProvider.chat_completion`) over five vendor adapters (OpenAI,
Anthropic, Google, DeepSeek, xAI).  The adapters' payload builders and
response-field extractors are pure Python functions over JSON values;
they are embedded here as total Lean functions over an explicit `Json`
type, with Python's dict, truthiness, subscript and exception semantics
made explicit.
-/

set_option autoImplicit false

/-- JSON values as returned by the vendor HTTP APIs and built by the
payload builders.  Python dicts are modelled as association lists in
insertion order (real dicts have distinct keys); Python `None` and JSON
`null` are identified, as they are by `json.loads`. -/
inductive Json where
  | null
  | bool (b : Bool)
  | num (n : Int)
  | str (s : String)
  | arr (xs : List Json)
  | obj (kvs : List (String × Json))
deriving BEq

/-- First-match lookup in an association list: the value Python dict
subscripting or `dict.get` sees for key `k` in a dict with these items. -/
def dictFind (kvs : List (String × Json)) (k : String) : Option Json :=
  match kvs with
  | [] => none
  | (k1, v) :: rest => if k1 = k then some v else dictFind rest k

/-- Python truthiness of a JSON value: `None`, `False`, `0`, `""`, `[]`
and `\x7b\x7d` are falsy, everything else truthy. -/
def Json.truthy : Json → Bool
  | .null => false
  | .bool b => b
  | .num n => n != 0
  | .str s => s != ""
  | .arr xs => !xs.isEmpty
  | .obj kvs => !kvs.isEmpty

/-- The exception kinds the adapter code can raise on malformed input:
`KeyError` from a dict subscript with a missing key, `IndexError` from an
out-of-range list index, `TypeError` from subscripting or joining a value
of the wrong type, `AttributeError` from calling `.get` or `.strip` on a
value that lacks the method (e.g. `None`). -/
inductive PyErr where
  | keyError (k : String)
  | indexError
  | typeError
  | attributeError
deriving BEq, DecidableEq

/-- Python `v.get(k)`: only dicts have a `get` method (`AttributeError`
on any other value, including `None`); a missing key yields `None`. -/
def pyGet (v : Json) (k : String) : Except PyErr Json :=
  match v with
  | .obj kvs => .ok ((dictFind kvs k).getD .null)
  | _ => .error .attributeError

/-- Python `v[k]` with a string key: `KeyError` when the key is missing
from a dict, `TypeError` when `v` is not a dict (list and str indices
must be integers; other values are not subscriptable). -/
def pySubscript (v : Json) (k : String) : Except PyErr Json :=
  match v with
  | .obj kvs =>
    match dictFind kvs k with
    | some x => .ok x
    | none => .error (.keyError k)
  | _ => .error .typeError

/-- Python `v[0]`: the head of a list (`IndexError` when empty), the
first character of a string (`IndexError` when empty), `KeyError` for a
dict (our dicts have no key `0`), `TypeError` otherwise. -/
def pyIndex0 (v : Json) : Except PyErr Json :=
  match v with
  | .arr xs =>
    match xs with
    | [] => .error .indexError
    | x :: _ => .ok x
  | .str s =>
    match s.data with
    | [] => .error .indexError
    | c :: _ => .ok (.str (String.mk [c]))
  | .obj _ => .error (.keyError "0")
  | _ => .error .typeError

/-- Python dict assignment `d[k] = v` on an association list: an existing
key keeps its position and gets the new value, a new key is appended. -/
def dictSet (d : List (String × Json)) (k : String) (v : Json) :
    List (String × Json) :=
  match d with
  | [] => [(k, v)]
  | (k1, v1) :: rest =>
    if k1 = k then (k, v) :: rest else (k1, v1) :: dictSet rest k v

/-- The semantics of a Python dict literal ending in `**kwargs`: the
explicit entries `d` are written first, then each `kwargs` item is
assigned in order, overwriting any same-named explicit entry. -/
def dictMerge (d : List (String × Json)) (kwargs : List (String × Json)) :
    List (String × Json) :=
  match kwargs with
  | [] => d
  | (k, v) :: rest => dictMerge (dictSet d k v) rest

/-- The whitespace characters Python `str.strip` removes (ASCII). -/
def isPyWs (c : Char) : Bool :=
  c = ' ' || c = '\t' || c = '\n' || c = '\r' || c = '\x0b' || c = '\x0c'

/-- Python `str.strip()` on the character list: drop whitespace from both
ends. -/
def pyStripChars (cs : List Char) : List Char :=
  (((cs.dropWhile isPyWs).reverse).dropWhile isPyWs).reverse

/-- Python `str.strip()`: remove leading and trailing whitespace. -/
def pyStrip (s : String) : String :=
  String.mk (pyStripChars s.data)

/-- Fuel-driven worker for `pyReplace`; the fuel is at least the length
of the remaining text, so it never runs out for a non-empty pattern. -/
def pyReplaceAux : Nat → List Char → List Char → List Char → List Char
  | 0, _, _, rest => rest
  | _ + 1, _, _, [] => []
  | fuel + 1, pat, rep, c :: rest =>
    if pat.isPrefixOf (c :: rest) then
      rep ++ pyReplaceAux fuel pat rep ((c :: rest).drop pat.length)
    else
      c :: pyReplaceAux fuel pat rep rest

/-- Python `s.replace(pat, rep)` for a non-empty pattern: replace every
occurrence left to right.  (The empty-pattern case, which Python treats
specially, never arises: the code only replaces `"Provider"`.) -/
def pyReplace (s pat rep : String) : String :=
  if pat.data.isEmpty then s
  else String.mk (pyReplaceAux (s.data.length + 1) pat.data rep.data s.data)

/-- ASCII lower-casing of one character, as Python `str.lower` does on
the ASCII class names at hand. -/
def asciiLower (c : Char) : Char :=
  if 'A' ≤ c && c ≤ 'Z' then Char.ofNat (c.toNat + 32) else c

/-- `self.__class__.__name__.replace('Provider', '').lower()` from
`LLMProvider.chat_completion`: the provider tag computed from the Python
class name. -/
def providerTag (className : String) : String :=
  String.mk ((pyReplace className "Provider" "").data.map asciiLower)

/-- Substring test (worker): does `pat` occur contiguously in `s`? -/
def strContainsAux : List Char → List Char → Bool
  | [], pat => pat.isEmpty
  | c :: rest, pat => pat.isPrefixOf (c :: rest) || strContainsAux rest pat

/-- Substring test: does `pat` occur contiguously in `s`? -/
def strContains (s pat : String) : Bool :=
  strContainsAux s.data pat.data

/-!
## Vendor adapter extractors

Each definition mirrors one `_extract_*_from_response` method; the guard
`if raw_response and raw_response.get(k):` of the Python sources becomes
a truthiness test on the raw value followed by `pyGet` (which, like
Python, raises `AttributeError` when a truthy non-dict is probed) and a
truthiness test on the fetched value.
-/

/-- `OpenAIProvider._extract_text_from_response`:
`raw_response['choices'][0]['message']['content']` behind the guard
`if raw_response and raw_response.get('choices')`. -/
def openai_extract_text (raw : Json) : Except PyErr Json :=
  if !raw.truthy then .ok .null else do
    let cs ← pyGet raw "choices"
    if !cs.truthy then .ok .null else do
      let c0 ← pyIndex0 cs
      let msg ← pySubscript c0 "message"
      pySubscript msg "content"

/-- `OpenAIProvider._extract_usage_from_response`:
`raw_response.get('usage')`, unguarded. -/
def openai_extract_usage (raw : Json) : Except PyErr Json :=
  pyGet raw "usage"

/-- `OpenAIProvider._extract_finish_reason_from_response`:
`raw_response['choices'][0].get('finish_reason')` behind the same
truthiness guard as the text extractor. -/
def openai_extract_finish (raw : Json) : Except PyErr Json :=
  if !raw.truthy then .ok .null else do
    let cs ← pyGet raw "choices"
    if !cs.truthy then .ok .null else do
      let c0 ← pyIndex0 cs
      pyGet c0 "finish_reason"

/-- Python `v == 'text'`: true exactly when `v` is that string (mixed
types compare unequal without error). -/
def isTextType : Json → Bool
  | .str s => s == "text"
  | _ => false

/-- First comprehension of
`AnthropicProvider._extract_text_from_response`:
`[block for block in content if block['type'] == 'text']`, evaluating
`block['type']` left to right. -/
def anthTypeFilter : List Json → Except PyErr (List Json)
  | [] => .ok []
  | b :: rest => do
    let t ← pySubscript b "type"
    let tail ← anthTypeFilter rest
    .ok (if isTextType t then b :: tail else tail)

/-- Second comprehension of
`AnthropicProvider._extract_text_from_response`:
`[block['text'] for block in text_content_blocks]`. -/
def anthGetTexts : List Json → Except PyErr (List Json)
  | [] => .ok []
  | b :: rest => do
    let x ← pySubscript b "text"
    let tail ← anthGetTexts rest
    .ok (x :: tail)

/-- Python `"".join(xs)`: concatenate, `TypeError` on a non-string item
(checked left to right). -/
def pyJoinStrs : List Json → Except PyErr String
  | [] => .ok ""
  | .str s :: rest => do
    let t ← pyJoinStrs rest
    .ok (s ++ t)
  | _ :: _ => .error .typeError

/-- `AnthropicProvider._extract_text_from_response`: behind the guard
`if raw_response and raw_response.get('content')`, filter the content
blocks to those with `type == 'text'` and join their `text` fields.
Iterating a truthy non-list raises (a `TypeError` once an element is
subscripted), as in Python. -/
def anthropic_extract_text (raw : Json) : Except PyErr Json :=
  if !raw.truthy then .ok .null else do
    let content ← pyGet raw "content"
    if !content.truthy then .ok .null else
      match content with
      | .arr blocks => do
        let tblocks ← anthTypeFilter blocks
        let xs ← anthGetTexts tblocks
        let s ← pyJoinStrs xs
        .ok (.str s)
      | _ => .error .typeError

/-- `AnthropicProvider._extract_usage_from_response`:
`raw_response.get('usage')`, unguarded. -/
def anthropic_extract_usage (raw : Json) : Except PyErr Json :=
  pyGet raw "usage"

/-- `AnthropicProvider._extract_finish_reason_from_response`:
`raw_response.get('stop_reason')`, unguarded. -/
def anthropic_extract_finish (raw : Json) : Except PyErr Json :=
  pyGet raw "stop_reason"

/-- The comprehension of `GoogleProvider._extract_text_from_response`:
`[part['text'] for part in text_parts if part.get('text')]`, evaluating
the filter and the subscript part by part. -/
def googleCollectTexts : List Json → Except PyErr (List Json)
  | [] => .ok []
  | p :: rest => do
    let t ← pyGet p "text"
    if t.truthy then do
      let x ← pySubscript p "text"
      let tail ← googleCollectTexts rest
      .ok (x :: tail)
    else
      googleCollectTexts rest

/-- `GoogleProvider._extract_text_from_response`: behind the guard chain
`raw_response and raw_response.get('candidates') and
raw_response['candidates'][0].get('content') and
raw_response['candidates'][0]['content'].get('parts')`, join the truthy
`text` fields of the parts. -/
def google_extract_text (raw : Json) : Except PyErr Json :=
  if !raw.truthy then .ok .null else do
    let cands ← pyGet raw "candidates"
    if !cands.truthy then .ok .null else do
      let c0 ← pyIndex0 cands
      let content ← pyGet c0 "content"
      if !content.truthy then .ok .null else do
        let parts ← pyGet content "parts"
        if !parts.truthy then .ok .null else
          match parts with
          | .arr ps => do
            let xs ← googleCollectTexts ps
            let s ← pyJoinStrs xs
            .ok (.str s)
          | _ => .error .typeError

/-- `GoogleProvider._extract_usage_from_response`:
`raw_response.get('usageMetadata')`, unguarded. -/
def google_extract_usage (raw : Json) : Except PyErr Json :=
  pyGet raw "usageMetadata"

/-- `GoogleProvider._extract_finish_reason_from_response`:
`raw_response['candidates'][0].get('finishReason')` behind the guard
chain `raw_response and raw_response.get('candidates') and
raw_response['candidates'][0].get('finishReason')`. -/
def google_extract_finish (raw : Json) : Except PyErr Json :=
  if !raw.truthy then .ok .null else do
    let cands ← pyGet raw "candidates"
    if !cands.truthy then .ok .null else do
      let c0 ← pyIndex0 cands
      let fr ← pyGet c0 "finishReason"
      if !fr.truthy then .ok .null else .ok fr

/-- `DeepSeekProvider._extract_text_from_response`:
`raw_response['choices'][0]['message']['content'].strip()` behind the
guard `if raw_response and raw_response.get('choices')`; `.strip()` on a
non-string raises `AttributeError`. -/
def deepseek_extract_text (raw : Json) : Except PyErr Json :=
  if !raw.truthy then .ok .null else do
    let cs ← pyGet raw "choices"
    if !cs.truthy then .ok .null else do
      let c0 ← pyIndex0 cs
      let msg ← pySubscript c0 "message"
      let content ← pySubscript msg "content"
      match content with
      | .str s => .ok (.str (pyStrip s))
      | _ => .error .attributeError

/-- `DeepSeekProvider._extract_usage_from_response`:
`raw_response.get('usage')`, unguarded. -/
def deepseek_extract_usage (raw : Json) : Except PyErr Json :=
  pyGet raw "usage"

/-- `DeepSeekProvider._extract_finish_reason_from_response`: same shape
as the OpenAI one. -/
def deepseek_extract_finish (raw : Json) : Except PyErr Json :=
  if !raw.truthy then .ok .null else do
    let cs ← pyGet raw "choices"
    if !cs.truthy then .ok .null else do
      let c0 ← pyIndex0 cs
      pyGet c0 "finish_reason"

/-- `xAIProvider._extract_text_from_response`: textually identical to
the OpenAI one. -/
def xai_extract_text (raw : Json) : Except PyErr Json :=
  if !raw.truthy then .ok .null else do
    let cs ← pyGet raw "choices"
    if !cs.truthy then .ok .null else do
      let c0 ← pyIndex0 cs
      let msg ← pySubscript c0 "message"
      pySubscript msg "content"

/-- `xAIProvider._extract_usage_from_response`:
`raw_response.get("usage")`, unguarded. -/
def xai_extract_usage (raw : Json) : Except PyErr Json :=
  pyGet raw "usage"

/-- `xAIProvider._extract_finish_reason_from_response`: same shape as
the OpenAI one. -/
def xai_extract_finish (raw : Json) : Except PyErr Json :=
  if !raw.truthy then .ok .null else do
    let cs ← pyGet raw "choices"
    if !cs.truthy then .ok .null else do
      let c0 ← pyIndex0 cs
      pyGet c0 "finish_reason"

/-!
## Payload and URL builders
-/

/-- A chat message `\x7brole: string, content: string\x7d` of the data
model, as (role, content). -/
abbrev ChatMsg := String × String

/-- The Python `messages` argument (a list of role/content dicts) as the
JSON value embedded in a payload. -/
def messagesToJson (messages : List ChatMsg) : Json :=
  .arr (messages.map fun m => .obj [("role", .str m.1), ("content", .str m.2)])

/-- `OpenAIProvider._build_payload`:
`\x7b"model": model, "messages": messages, **kwargs\x7d`. -/
def openai_build_payload (model : String) (messages : List ChatMsg)
    (kwargs : List (String × Json)) : List (String × Json) :=
  dictMerge [("model", .str model), ("messages", messagesToJson messages)] kwargs

/-- `AnthropicProvider._build_payload`: `\x7b"model": model,
"messages": messages, "max_tokens": kwargs.get('max_tokens', 1024),
**kwargs\x7d`. -/
def anthropic_build_payload (model : String) (messages : List ChatMsg)
    (kwargs : List (String × Json)) : List (String × Json) :=
  dictMerge
    [("model", .str model), ("messages", messagesToJson messages),
     ("max_tokens", (dictFind kwargs "max_tokens").getD (.num 1024))]
    kwargs

/-- The accumulation loop of `GoogleProvider._build_payload`:
`prompt_text = ""` then `prompt_text += msg['content'] + "\n"` for each
message whose role is `user`. -/
def googlePromptText (messages : List ChatMsg) : String :=
  messages.foldl (fun acc m => if m.1 == "user" then acc ++ m.2 ++ "\n" else acc) ""

/-- `GoogleProvider._build_payload`: `\x7b"contents": [\x7b"parts":
[\x7b"text": prompt_text.strip()\x7d]\x7d], **kwargs\x7d`. -/
def google_build_payload (_model : String) (messages : List ChatMsg)
    (kwargs : List (String × Json)) : List (String × Json) :=
  dictMerge
    [("contents", .arr [.obj [("parts",
        .arr [.obj [("text", .str (pyStrip (googlePromptText messages)))]])]])]
    kwargs

/-- `DeepSeekProvider._build_payload`: same shape as the OpenAI one. -/
def deepseek_build_payload (model : String) (messages : List ChatMsg)
    (kwargs : List (String × Json)) : List (String × Json) :=
  dictMerge [("model", .str model), ("messages", messagesToJson messages)] kwargs

/-- `xAIProvider._build_payload`: same shape as the OpenAI one. -/
def xai_build_payload (model : String) (messages : List ChatMsg)
    (kwargs : List (String × Json)) : List (String × Json) :=
  dictMerge [("model", .str model), ("messages", messagesToJson messages)] kwargs

/-!
## Provider contract and request lifecycle

`LLMProvider.chat_completion` builds a URL and a payload, performs one
POST through `_make_request`, and assembles the result dict.  The network
is modelled by passing in the `HttpResponse` the POST comes back with;
`_make_request` is split into its returned value (`make_request_result`,
mirroring `raise_for_status` + `response.json()`) and the debug log lines
it emits (`make_request_logs`).
-/

/-- One vendor adapter: the class name plus the five extension points of
the `LLMProvider` contract, with the static headers its `__init__`
installs. -/
structure ProviderC where
  className : String
  headers : List (String × String)
  build_url : String → List ChatMsg → List (String × Json) → String
  build_payload : String → List ChatMsg → List (String × Json) → List (String × Json)
  extract_text : Json → Except PyErr Json
  extract_usage : Json → Except PyErr Json
  extract_finish : Json → Except PyErr Json

/-- `OpenAIProvider.__init__` plus its extension points. -/
def openAIProvider (api_key base_url : String) : ProviderC where
  className := "OpenAIProvider"
  headers := [("Authorization", "Bearer " ++ api_key), ("Content-Type", "application/json")]
  build_url := fun _ _ _ => base_url ++ "/chat/completions"
  build_payload := openai_build_payload
  extract_text := openai_extract_text
  extract_usage := openai_extract_usage
  extract_finish := openai_extract_finish

/-- `AnthropicProvider.__init__` plus its extension points. -/
def anthropicProvider (api_key base_url : String) : ProviderC where
  className := "AnthropicProvider"
  headers := [("x-api-key", api_key), ("anthropic-version", "2023-06-01"),
              ("Content-Type", "application/json")]
  build_url := fun _ _ _ => base_url ++ "/messages"
  build_payload := anthropic_build_payload
  extract_text := anthropic_extract_text
  extract_usage := anthropic_extract_usage
  extract_finish := anthropic_extract_finish

/-- `GoogleProvider.__init__` plus its extension points. -/
def googleProvider (api_key base_url : String) : ProviderC where
  className := "GoogleProvider"
  headers := [("Content-Type", "application/json")]
  build_url := fun model _ _ =>
    base_url ++ "/models/" ++ model ++ ":generateContent?key=" ++ api_key
  build_payload := google_build_payload
  extract_text := google_extract_text
  extract_usage := google_extract_usage
  extract_finish := google_extract_finish

/-- `DeepSeekProvider.__init__` plus its extension points. -/
def deepSeekProvider (api_key base_url : String) : ProviderC where
  className := "DeepSeekProvider"
  headers := [("Authorization", "Bearer " ++ api_key), ("Content-Type", "application/json")]
  build_url := fun _ _ _ => base_url ++ "/chat/completions"
  build_payload := deepseek_build_payload
  extract_text := deepseek_extract_text
  extract_usage := deepseek_extract_usage
  extract_finish := deepseek_extract_finish

/-- `xAIProvider.__init__` plus its extension points. -/
def xAIProvider (api_key base_url : String) : ProviderC where
  className := "xAIProvider"
  headers := [("Authorization", "Bearer " ++ api_key), ("Content-Type", "application/json")]
  build_url := fun _ _ _ => base_url ++ "/chat/completions"
  build_payload := xai_build_payload
  extract_text := xai_extract_text
  extract_usage := xai_extract_usage
  extract_finish := xai_extract_finish

/-- The HTTP response the POST of `_make_request` comes back with:
status, response headers, and the body as parsed JSON (`none` when the
body is not decodable JSON). -/
structure HttpResponse where
  status : Nat
  headers : List (String × String)
  body : Option Json

/-- What a call can fail with: `requestFailed` is aiohttp's
`ClientResponseError` out of `raise_for_status` (status and headers kept,
the spec's `RequestFailed`); `malformedResponse` is a body that fails to
parse as JSON (the spec's `MalformedResponse`); `extraction` is an
uncaught Python exception escaping an extractor. -/
inductive CallError where
  | requestFailed (status : Nat) (headers : List (String × String))
  | malformedResponse
  | extraction (e : PyErr)
deriving BEq

/-- The value `_make_request` returns or the error it raises:
`response.raise_for_status()` raises `ClientResponseError` exactly when
the status is >= 400 (aiohttp's `ClientResponse.ok` is `status < 400`),
and on success the body is parsed as JSON. -/
def make_request_result (resp : HttpResponse) : Except CallError Json :=
  if 400 ≤ resp.status then .error (.requestFailed resp.status resp.headers)
  else
    match resp.body with
    | some j => .ok j
    | none => .error .malformedResponse

/-- The result dict `chat_completion` builds on success; `text` is `.null`
for the Python `None`. -/
structure NormalizedResult where
  text : Json
  provider : String
  model : String
  raw_response : Json
  usage : Json
  finish_reason : Json
deriving BEq

/-- The value `chat_completion` returns or the error it raises: build
URL and payload, run `_make_request`, run the three extractors (an
exception from any of them propagates), then assemble the result dict
with `'text': text if text else None` and the provider tag computed from
the class name. -/
def chat_completion_result (p : ProviderC) (model : String)
    (resp : HttpResponse) : Except CallError NormalizedResult :=
  match make_request_result resp with
  | .error e => .error e
  | .ok raw =>
    match p.extract_text raw with
    | .error e => .error (.extraction e)
    | .ok text =>
      match p.extract_usage raw with
      | .error e => .error (.extraction e)
      | .ok usage =>
        match p.extract_finish raw with
        | .error e => .error (.extraction e)
        | .ok fin =>
          .ok { text := if text.truthy then text else .null
                provider := providerTag p.className
                model := model
                raw_response := raw
                usage := usage
                finish_reason := fin }

mutual

/-- `json.dumps` as used for the debug logs (compact separators instead
of `indent=2`; the claims only probe the log lines for substrings, never
for layout). -/
def dumps : Json → String
  | .null => "null"
  | .bool true => "true"
  | .bool false => "false"
  | .num n => toString n
  | .str s => "\"" ++ s ++ "\""
  | .arr xs => "[" ++ dumpsList xs ++ "]"
  | .obj kvs => "\x7b" ++ dumpsObj kvs ++ "\x7d"

/-- Comma-separated serialization of an array's items. -/
def dumpsList : List Json → String
  | [] => ""
  | [x] => dumps x
  | x :: y :: rest => dumps x ++ ", " ++ dumpsList (y :: rest)

/-- Comma-separated serialization of an object's entries. -/
def dumpsObj : List (String × Json) → String
  | [] => ""
  | [kv] => "\"" ++ kv.1 ++ "\": " ++ dumps kv.2
  | kv :: kv2 :: rest =>
    "\"" ++ kv.1 ++ "\": " ++ dumps kv.2 ++ ", " ++ dumpsObj (kv2 :: rest)

end

/-- The line `logger.debug(headers)` emits: the header mapping rendered
key by key with its plaintext values (Python prints the dict's repr; the
quoting is immaterial, the keys and values appear verbatim). -/
def reprHeaders (hs : List (String × String)) : String :=
  "\x7b" ++ String.intercalate ", " (hs.map fun kv => kv.1 ++ ": " ++ kv.2) ++ "\x7d"

/-- The debug/error lines `_make_request` emits for one call: the
request URL, headers and payload are always logged; on success the
response JSON follows, on a `ClientResponseError` the error and the
response headers follow. -/
def make_request_logs (url : String) (headers : List (String × String))
    (payload : List (String × Json)) (resp : HttpResponse) : List String :=
  ["Request URL: " ++ url,
   "Request Headers:",
   reprHeaders headers,
   "Request Payload:",
   dumps (.obj payload)] ++
  (if 400 ≤ resp.status then
    ["ClientResponseError: status " ++ toString resp.status,
     "Response Headers on Error:",
     reprHeaders resp.headers]
   else
    match resp.body with
    | some j => ["Response JSON:", dumps j]
    | none => [])

/-- `LLMProvider.chat_completion` as observed from outside: the returned
result dict (or raised error) together with the log lines the call
emitted.  The URL and payload the adapter builds enter the logs; the
vendor's answer to that request is the `resp` argument. -/
def chat_completion (p : ProviderC) (messages : List ChatMsg) (model : String)
    (kwargs : List (String × Json)) (resp : HttpResponse) :
    Except CallError NormalizedResult × List String :=
  (chat_completion_result p model resp,
   make_request_logs (p.build_url model messages kwargs) p.headers
     (p.build_payload model messages kwargs) resp)

/-!
## Auxiliary definitions for the statements
-/

/-- Does the object lack key `k`, or bind it to a falsy value?  Exactly
the condition under which the guard `raw_response.get(k)` of the guarded
extractors fails and `None` is returned. -/
def keyAbsentOrFalsy (kvs : List (String × Json)) (k : String) : Bool :=
  match dictFind kvs k with
  | none => true
  | some v => !v.truthy

/-- Concatenation of a list of strings (the value of `"".join`). -/
def joinAll : List String → String
  | [] => ""
  | s :: rest => s ++ joinAll rest

/-- A content block of an Anthropic-shaped response: a `type` tag and a
`text` payload. -/
def mkBlock (b : String × String) : Json :=
  .obj [("type", .str b.1), ("text", .str b.2)]

/-- Modelled from the spec: the newline-joined concatenation of a list
of strings, as in "all user-role messages concatenated (newline-joined)
into a single prompt part".  Stated independently of the source's
accumulation loop so the two can be compared. -/
def specNewlineJoin : List String → String
  | [] => ""
  | [u] => u
  | u :: u2 :: rest => u ++ "\n" ++ specNewlineJoin (u2 :: rest)

/-- Each string followed by a newline, concatenated: the shape the
Google prompt accumulation loop produces before stripping. -/
def concatNl : List String → String
  | [] => ""
  | u :: rest => u ++ "\n" ++ concatNl rest

/-- A well-formed OpenAI-shaped response body (the fixture of the spec's
first scenario).  The OpenAI-shaped extractors find text "4", usage and
finish reason in it; the Anthropic- and Google-shaped extractors find
none of their fields and degrade to absent. -/
def openAIFixture : Json :=
  .obj [("choices", .arr [.obj [("message", .obj [("content", .str "4")]),
                                ("finish_reason", .str "stop")]]),
        ("usage", .obj [("total_tokens", .num 5)])]

/-!
## Dictionary lemmas
-/

theorem except_bind_ok {α β γ : Type} (a : α) (f : α → Except γ β) :
    (Except.ok a >>= f : Except γ β) = f a := rfl

theorem dictFind_dictSet_self (d : List (String × Json)) (k : String) (v : Json) :
    dictFind (dictSet d k v) k = some v := by
  induction d with
  | nil => simp [dictSet, dictFind]
  | cons kv rest ih =>
    obtain ⟨k1, v1⟩ := kv
    by_cases hk : k1 = k
    · simp [dictSet, hk, dictFind]
    · simp [dictSet, hk, dictFind, ih]

theorem dictFind_dictSet_ne (d : List (String × Json)) (k1 k : String) (v : Json)
    (hne : k1 ≠ k) : dictFind (dictSet d k1 v) k = dictFind d k := by
  induction d with
  | nil => simp [dictSet, dictFind, hne]
  | cons kv rest ih =>
    obtain ⟨k2, v2⟩ := kv
    by_cases hk : k2 = k1
    · simp [dictSet, hk, dictFind, hne]
    · simp [dictSet, hk, dictFind, ih]

theorem dictFind_dictMerge_not_mem (kwargs d : List (String × Json)) (k : String)
    (h : ¬ (kwargs.map Prod.fst).contains k) :
    dictFind (dictMerge d kwargs) k = dictFind d k := by
  induction kwargs generalizing d with
  | nil => rfl
  | cons kv rest ih =>
    obtain ⟨k1, v1⟩ := kv
    simp only [List.map_cons, List.contains_cons, Bool.or_eq_true, not_or] at h
    have h1 : k1 ≠ k := by
      intro he
      exact h.1 (by simp [he])
    have h2 : ¬ (rest.map Prod.fst).contains k := by
      intro hc
      exact h.2 hc
    calc dictFind (dictMerge (dictSet d k1 v1) rest) k
        = dictFind (dictSet d k1 v1) k := ih (dictSet d k1 v1) h2
      _ = dictFind d k := dictFind_dictSet_ne d k1 k v1 h1

theorem dictFind_dictMerge_mem (kwargs d : List (String × Json)) (k : String) (v : Json)
    (hnd : (kwargs.map Prod.fst).Nodup) (h : dictFind kwargs k = some v) :
    dictFind (dictMerge d kwargs) k = some v := by
  induction kwargs generalizing d with
  | nil => simp [dictFind] at h
  | cons kv rest ih =>
    obtain ⟨k1, v1⟩ := kv
    simp only [List.map_cons, List.nodup_cons] at hnd
    by_cases hk : k1 = k
    · subst hk
      simp [dictFind] at h
      subst h
      have hrest : ¬ (rest.map Prod.fst).contains k1 := by
        intro hc
        exact hnd.1 (by simpa using hc)
      calc dictFind (dictMerge (dictSet d k1 v1) rest) k1
          = dictFind (dictSet d k1 v1) k1 :=
            dictFind_dictMerge_not_mem rest (dictSet d k1 v1) k1 hrest
        _ = some v1 := dictFind_dictSet_self d k1 v1
    · simp only [dictFind, if_neg hk] at h
      exact ih (dictSet d k1 v1) hnd.2 h

theorem dictFind_ne_none_of_mem (l : List (String × Json)) (k : String)
    (h : (l.map Prod.fst).contains k) : dictFind l k ≠ none := by
  induction l with
  | nil => simp at h
  | cons kv rest ih =>
    obtain ⟨k1, v1⟩ := kv
    simp only [List.map_cons, List.contains_cons, Bool.or_eq_true] at h
    by_cases hk : k1 = k
    · simp [dictFind, hk]
    · have hr : (rest.map Prod.fst).contains k := by
        rcases h with h | h
        · exact absurd (by simpa using h : k = k1).symm hk
        · exact h
      simp [dictFind, hk, ih hr]

theorem dictFind_none_of_not_mem (l : List (String × Json)) (k : String)
    (h : ¬ (l.map Prod.fst).contains k) : dictFind l k = none := by
  induction l with
  | nil => rfl
  | cons kv rest ih =>
    obtain ⟨k1, v1⟩ := kv
    simp only [List.map_cons, List.contains_cons, Bool.or_eq_true, not_or] at h
    have h1 : k1 ≠ k := by
      intro he
      exact h.1 (by simp [he])
    simp [dictFind, h1, ih h.2]

/-!
## Inversion of a successful call
-/

/-- A value out of `_make_request` means the status was below the
`raise_for_status` threshold and the value is the parsed body. -/
theorem make_request_result_ok (resp : HttpResponse) (raw : Json)
    (h : make_request_result resp = .ok raw) :
    resp.status < 400 ∧ resp.body = some raw := by
  unfold make_request_result at h
  by_cases hs : 400 ≤ resp.status
  · rw [if_pos hs] at h
    exact Except.noConfusion h
  · rw [if_neg hs] at h
    cases hb : resp.body with
    | none =>
      rw [hb] at h
      exact Except.noConfusion h
    | some j =>
      rw [hb] at h
      exact ⟨Nat.lt_of_not_le hs, by rw [Except.ok.inj h]⟩

/-- Anatomy of every `.ok` result of `chat_completion_result`: the
transport status was below the `raise_for_status` threshold, the body
parsed, the three extractors returned without raising, and the result
record is assembled exactly from their values, the model argument, the
provider tag, and the untouched raw body. -/
theorem chat_completion_result_ok (p : ProviderC) (model : String)
    (resp : HttpResponse) (r : NormalizedResult)
    (h : chat_completion_result p model resp = .ok r) :
    ∃ raw text usage fin,
      resp.status < 400 ∧ resp.body = some raw ∧
      p.extract_text raw = .ok text ∧ p.extract_usage raw = .ok usage ∧
      p.extract_finish raw = .ok fin ∧
      r = { text := if text.truthy then text else .null,
            provider := providerTag p.className, model := model,
            raw_response := raw, usage := usage, finish_reason := fin } := by
  unfold chat_completion_result at h
  split at h
  · exact Except.noConfusion h
  rename_i raw hmr
  split at h
  · exact Except.noConfusion h
  rename_i text ht
  split at h
  · exact Except.noConfusion h
  rename_i usage hu
  split at h
  · exact Except.noConfusion h
  rename_i fin hf
  obtain ⟨hs, hb⟩ := make_request_result_ok resp raw hmr
  exact ⟨raw, text, usage, fin, hs, hb, ht, hu, hf, (Except.ok.inj h).symm⟩

/-!
## Guard behaviour of the extractors
-/

/-- When the object lacks key `k` or binds it to a falsy value, `get(k)`
returns a falsy value without raising. -/
theorem pyGet_guard (kvs : List (String × Json)) (k : String)
    (h : keyAbsentOrFalsy kvs k = true) :
    ∃ v, pyGet (.obj kvs) k = .ok v ∧ v.truthy = false := by
  unfold keyAbsentOrFalsy at h
  cases hf : dictFind kvs k with
  | none =>
    refine ⟨.null, ?_, rfl⟩
    show Except.ok ((dictFind kvs k).getD Json.null) = Except.ok Json.null
    rw [hf]
    rfl
  | some v =>
    rw [hf] at h
    refine ⟨v, ?_, by simpa using h⟩
    show Except.ok ((dictFind kvs k).getD Json.null) = Except.ok v
    rw [hf]
    rfl

theorem openai_extract_text_guard (kvs : List (String × Json))
    (h : keyAbsentOrFalsy kvs "choices" = true) :
    openai_extract_text (.obj kvs) = .ok .null := by
  obtain ⟨v, hv, hvf⟩ := pyGet_guard kvs "choices" h
  cases ht : (Json.obj kvs).truthy with
  | false => simp [openai_extract_text, ht]
  | true => simp [openai_extract_text, ht, hv, except_bind_ok, hvf]

theorem openai_extract_finish_guard (kvs : List (String × Json))
    (h : keyAbsentOrFalsy kvs "choices" = true) :
    openai_extract_finish (.obj kvs) = .ok .null := by
  obtain ⟨v, hv, hvf⟩ := pyGet_guard kvs "choices" h
  cases ht : (Json.obj kvs).truthy with
  | false => simp [openai_extract_finish, ht]
  | true => simp [openai_extract_finish, ht, hv, except_bind_ok, hvf]

theorem deepseek_extract_text_guard (kvs : List (String × Json))
    (h : keyAbsentOrFalsy kvs "choices" = true) :
    deepseek_extract_text (.obj kvs) = .ok .null := by
  obtain ⟨v, hv, hvf⟩ := pyGet_guard kvs "choices" h
  cases ht : (Json.obj kvs).truthy with
  | false => simp [deepseek_extract_text, ht]
  | true => simp [deepseek_extract_text, ht, hv, except_bind_ok, hvf]

theorem deepseek_extract_finish_guard (kvs : List (String × Json))
    (h : keyAbsentOrFalsy kvs "choices" = true) :
    deepseek_extract_finish (.obj kvs) = .ok .null := by
  obtain ⟨v, hv, hvf⟩ := pyGet_guard kvs "choices" h
  cases ht : (Json.obj kvs).truthy with
  | false => simp [deepseek_extract_finish, ht]
  | true => simp [deepseek_extract_finish, ht, hv, except_bind_ok, hvf]

theorem xai_extract_text_guard (kvs : List (String × Json))
    (h : keyAbsentOrFalsy kvs "choices" = true) :
    xai_extract_text (.obj kvs) = .ok .null := by
  obtain ⟨v, hv, hvf⟩ := pyGet_guard kvs "choices" h
  cases ht : (Json.obj kvs).truthy with
  | false => simp [xai_extract_text, ht]
  | true => simp [xai_extract_text, ht, hv, except_bind_ok, hvf]

theorem xai_extract_finish_guard (kvs : List (String × Json))
    (h : keyAbsentOrFalsy kvs "choices" = true) :
    xai_extract_finish (.obj kvs) = .ok .null := by
  obtain ⟨v, hv, hvf⟩ := pyGet_guard kvs "choices" h
  cases ht : (Json.obj kvs).truthy with
  | false => simp [xai_extract_finish, ht]
  | true => simp [xai_extract_finish, ht, hv, except_bind_ok, hvf]

theorem anthropic_extract_text_guard (kvs : List (String × Json))
    (h : keyAbsentOrFalsy kvs "content" = true) :
    anthropic_extract_text (.obj kvs) = .ok .null := by
  obtain ⟨v, hv, hvf⟩ := pyGet_guard kvs "content" h
  cases ht : (Json.obj kvs).truthy with
  | false => simp [anthropic_extract_text, ht]
  | true => simp [anthropic_extract_text, ht, hv, except_bind_ok, hvf]

theorem google_extract_text_guard (kvs : List (String × Json))
    (h : keyAbsentOrFalsy kvs "candidates" = true) :
    google_extract_text (.obj kvs) = .ok .null := by
  obtain ⟨v, hv, hvf⟩ := pyGet_guard kvs "candidates" h
  cases ht : (Json.obj kvs).truthy with
  | false => simp [google_extract_text, ht]
  | true => simp [google_extract_text, ht, hv, except_bind_ok, hvf]

theorem google_extract_finish_guard (kvs : List (String × Json))
    (h : keyAbsentOrFalsy kvs "candidates" = true) :
    google_extract_finish (.obj kvs) = .ok .null := by
  obtain ⟨v, hv, hvf⟩ := pyGet_guard kvs "candidates" h
  cases ht : (Json.obj kvs).truthy with
  | false => simp [google_extract_finish, ht]
  | true => simp [google_extract_finish, ht, hv, except_bind_ok, hvf]

/-- The provider field of every returned result is the tag computed from
the adapter's class name. -/
theorem chat_completion_ok_provider (p : ProviderC) (messages : List ChatMsg)
    (model : String) (kwargs : List (String × Json)) (resp : HttpResponse)
    (r : NormalizedResult)
    (h : (chat_completion p messages model kwargs resp).1 = .ok r) :
    r.provider = providerTag p.className := by
  obtain ⟨raw, text, usage, fin, _, _, _, _, _, hr⟩ :=
    chat_completion_result_ok p model resp r h
  rw [hr]

/-!
## The claims
-/

/-- C2, counterexample: the extraction methods are not total over
arbitrary JSON.  The OpenAI-shaped text extractor raises
`KeyError('message')` on the body `\x7b"choices": [\x7b\x7d]\x7d`, whose
top-level guard passes but whose first choice lacks a `message` key; and
the unguarded usage extractor raises `AttributeError` on the JSON body
`null` (Python `None.get`). -/
theorem c2_counterexample :
    openai_extract_text (.obj [("choices", .arr [.obj []])])
      = .error (.keyError "message") ∧
    openai_extract_usage .null = .error .attributeError :=
  ⟨rfl, rfl⟩

/-- C2, amended: over raw responses that are JSON objects, the
extractors are total as long as only the guarded top-level key is
missing or falsy: the text extractors and the guarded finish-reason
extractors then return absent without raising, and the unguarded
usage/finish extractors always return the top-level field or absent.
Totality does not extend to malformed deeper nesting or to non-object
raw responses (see the counterexample). -/
theorem c2_extract_total_when_guarded (kvs : List (String × Json)) :
    (keyAbsentOrFalsy kvs "choices" = true →
      openai_extract_text (.obj kvs) = .ok .null ∧
      openai_extract_finish (.obj kvs) = .ok .null ∧
      deepseek_extract_text (.obj kvs) = .ok .null ∧
      deepseek_extract_finish (.obj kvs) = .ok .null ∧
      xai_extract_text (.obj kvs) = .ok .null ∧
      xai_extract_finish (.obj kvs) = .ok .null) ∧
    (keyAbsentOrFalsy kvs "content" = true →
      anthropic_extract_text (.obj kvs) = .ok .null) ∧
    (keyAbsentOrFalsy kvs "candidates" = true →
      google_extract_text (.obj kvs) = .ok .null ∧
      google_extract_finish (.obj kvs) = .ok .null) ∧
    openai_extract_usage (.obj kvs) = .ok ((dictFind kvs "usage").getD .null) ∧
    anthropic_extract_usage (.obj kvs) = .ok ((dictFind kvs "usage").getD .null) ∧
    google_extract_usage (.obj kvs) = .ok ((dictFind kvs "usageMetadata").getD .null) ∧
    deepseek_extract_usage (.obj kvs) = .ok ((dictFind kvs "usage").getD .null) ∧
    xai_extract_usage (.obj kvs) = .ok ((dictFind kvs "usage").getD .null) ∧
    anthropic_extract_finish (.obj kvs) = .ok ((dictFind kvs "stop_reason").getD .null) :=
  ⟨fun h => ⟨openai_extract_text_guard kvs h, openai_extract_finish_guard kvs h,
      deepseek_extract_text_guard kvs h, deepseek_extract_finish_guard kvs h,
      xai_extract_text_guard kvs h, xai_extract_finish_guard kvs h⟩,
   fun h => anthropic_extract_text_guard kvs h,
   fun h => ⟨google_extract_text_guard kvs h, google_extract_finish_guard kvs h⟩,
   rfl, rfl, rfl, rfl, rfl, rfl⟩

/-- C2, witness: a concrete body with none of the expected fields, on
which the amended theorem yields absent text for the OpenAI-shaped
adapter. -/
theorem c2_witness :
    keyAbsentOrFalsy [("note", Json.str "no choices here")] "choices" = true ∧
    openai_extract_text (.obj [("note", Json.str "no choices here")]) = .ok .null :=
  ⟨by decide,
   ((c2_extract_total_when_guarded [("note", Json.str "no choices here")]).1
     (by decide)).1⟩

/-- C4, counterexample: a transport status of 304 is outside 200-299,
yet `chat_completion` does not raise: aiohttp's `raise_for_status` only
raises for status >= 400, so the body is parsed and a full
`NormalizedResult` is returned. -/
theorem c4_counterexample :
    ¬ (200 ≤ 304 ∧ 304 ≤ 299) ∧
    (chat_completion (openAIProvider "k" "https://api.openai.com/v1")
        [("user", "hi")] "gpt-4o-mini" []
        { status := 304, headers := [], body := some openAIFixture }).1
      = .ok { text := .str "4", provider := "openai", model := "gpt-4o-mini",
              raw_response := openAIFixture,
              usage := .obj [("total_tokens", .num 5)],
              finish_reason := .str "stop" } :=
  ⟨by decide, rfl⟩

/-- C4, amended: for every call whose transport response has status
>= 400 (the `raise_for_status` condition; 3xx statuses are not treated
as failures), `chat_completion` raises the `RequestFailed` error
carrying exactly that status code and those response headers,
propagated unchanged, and no `NormalizedResult` is returned. -/
theorem c4_request_failed (p : ProviderC) (messages : List ChatMsg)
    (model : String) (kwargs : List (String × Json)) (resp : HttpResponse)
    (h : 400 ≤ resp.status) :
    (chat_completion p messages model kwargs resp).1
      = .error (.requestFailed resp.status resp.headers) := by
  show chat_completion_result p model resp = _
  unfold chat_completion_result make_request_result
  rw [if_pos h]

/-- C4, witness: a concrete 404 with headers surfaces as
`RequestFailed 404` with those headers. -/
theorem c4_witness :
    400 ≤ 404 ∧
    (chat_completion (openAIProvider "k" "https://api.openai.com/v1")
        [("user", "hi")] "gpt-4o-mini" []
        { status := 404, headers := [("retry-after", "1")], body := some openAIFixture }).1
      = .error (.requestFailed 404 [("retry-after", "1")]) :=
  ⟨by decide,
   c4_request_failed (openAIProvider "k" "https://api.openai.com/v1")
     [("user", "hi")] "gpt-4o-mini" []
     { status := 404, headers := [("retry-after", "1")], body := some openAIFixture }
     (by decide)⟩

/-- C6: whenever `chat_completion` returns a result, its `raw_response`
field is exactly the parsed JSON body the transport returned — the
normalized fields are assembled alongside it, nothing in it is
replaced. -/
theorem c6_raw_response_untouched (p : ProviderC) (messages : List ChatMsg)
    (model : String) (kwargs : List (String × Json)) (resp : HttpResponse)
    (r : NormalizedResult)
    (h : (chat_completion p messages model kwargs resp).1 = .ok r) :
    resp.body = some r.raw_response := by
  obtain ⟨raw, text, usage, fin, _, hb, _, _, _, hr⟩ :=
    chat_completion_result_ok p model resp r h
  rw [hr]
  exact hb

/-- C6, witness: on the concrete OpenAI fixture the returned
`raw_response` is the body the transport handed back. -/
theorem c6_witness :
    HttpResponse.body { status := 200, headers := [], body := some openAIFixture }
      = some (NormalizedResult.raw_response
          { text := .str "4", provider := "xai", model := "grok-2",
            raw_response := openAIFixture, usage := .obj [("total_tokens", .num 5)],
            finish_reason := .str "stop" }) :=
  c6_raw_response_untouched (xAIProvider "k" "https://api.x.ai/v1")
    [("user", "hi")] "grok-2" []
    { status := 200, headers := [], body := some openAIFixture }
    { text := .str "4", provider := "xai", model := "grok-2",
      raw_response := openAIFixture, usage := .obj [("total_tokens", .num 5)],
      finish_reason := .str "stop" }
    rfl

/-- C9: the Anthropic-shaped payload always carries `max_tokens`: the
caller-supplied value from `options` when present, 1024 otherwise.  (The
options list models a Python dict, hence the distinct-keys premise.) -/
theorem c9_max_tokens (model : String) (messages : List ChatMsg)
    (kwargs : List (String × Json)) (hnd : (kwargs.map Prod.fst).Nodup) :
    dictFind (anthropic_build_payload model messages kwargs) "max_tokens"
      = some ((dictFind kwargs "max_tokens").getD (.num 1024)) := by
  cases hmt : dictFind kwargs "max_tokens" with
  | none =>
    have hnm : ¬ (kwargs.map Prod.fst).contains "max_tokens" :=
      fun hc => dictFind_ne_none_of_mem kwargs "max_tokens" hc hmt
    unfold anthropic_build_payload
    rw [dictFind_dictMerge_not_mem kwargs _ "max_tokens" hnm, hmt]
    rfl
  | some v =>
    unfold anthropic_build_payload
    rw [dictFind_dictMerge_mem kwargs _ "max_tokens" v hnd hmt]
    rfl

/-- C9, witness: with caller-supplied `max_tokens` 9 the payload carries
9; the default case is exercised by the amended C1 witness family. -/
theorem c9_witness :
    ([("max_tokens", Json.num 9)].map Prod.fst).Nodup ∧
    dictFind (anthropic_build_payload "claude-3-opus-20240229" [("user", "hi")]
        [("max_tokens", Json.num 9)]) "max_tokens"
      = some ((dictFind [("max_tokens", Json.num 9)] "max_tokens").getD (.num 1024)) :=
  ⟨by decide,
   c9_max_tokens "claude-3-opus-20240229" [("user", "hi")]
     [("max_tokens", Json.num 9)] (by decide)⟩

/-- C10: whenever a call returns and the adapter's text extractor
produced the empty string on the returned raw body, the result's `text`
is absent (`None`), because `'text': text if text else None` coerces
every falsy extracted text to `None`. -/
theorem c10_empty_text_absent (p : ProviderC) (messages : List ChatMsg)
    (model : String) (kwargs : List (String × Json)) (resp : HttpResponse)
    (r : NormalizedResult)
    (hok : (chat_completion p messages model kwargs resp).1 = .ok r)
    (hext : p.extract_text r.raw_response = .ok (.str "")) :
    r.text = .null := by
  obtain ⟨raw, text, usage, fin, _, _, ht, _, _, hr⟩ :=
    chat_completion_result_ok p model resp r hok
  subst hr
  dsimp only at hext ⊢
  rw [ht] at hext
  have htext : text = .str "" := Except.ok.inj hext
  subst htext
  rfl

/-- C10, witness: an OpenAI-shaped body whose
`choices[0].message.content` is `""` yields an absent `text`. -/
theorem c10_witness :
    NormalizedResult.text
        { text := .null, provider := "openai", model := "gpt-4o-mini",
          raw_response := .obj [("choices", .arr [.obj [("message",
            .obj [("content", .str "")])]])],
          usage := .null, finish_reason := .null }
      = .null :=
  c10_empty_text_absent (openAIProvider "k" "https://api.openai.com/v1")
    [("user", "hi")] "gpt-4o-mini" []
    { status := 200, headers := [],
      body := some (.obj [("choices", .arr [.obj [("message",
        .obj [("content", .str "")])]])]) }
    { text := .null, provider := "openai", model := "gpt-4o-mini",
      raw_response := .obj [("choices", .arr [.obj [("message",
        .obj [("content", .str "")])]])],
      usage := .null, finish_reason := .null }
    rfl rfl

/-- C7: for each of the five adapters, every returned result's
`provider` field is the fixed lowercase vendor tag, whatever the raw
body contains: the tag is computed from the Python class name alone. -/
theorem c7_provider_tag (api_key base_url : String) (messages : List ChatMsg)
    (model : String) (kwargs : List (String × Json)) (resp : HttpResponse)
    (r1 r2 r3 r4 r5 : NormalizedResult) :
    ((chat_completion (openAIProvider api_key base_url) messages model kwargs resp).1
        = .ok r1 → r1.provider = "openai") ∧
    ((chat_completion (anthropicProvider api_key base_url) messages model kwargs resp).1
        = .ok r2 → r2.provider = "anthropic") ∧
    ((chat_completion (googleProvider api_key base_url) messages model kwargs resp).1
        = .ok r3 → r3.provider = "google") ∧
    ((chat_completion (deepSeekProvider api_key base_url) messages model kwargs resp).1
        = .ok r4 → r4.provider = "deepseek") ∧
    ((chat_completion (xAIProvider api_key base_url) messages model kwargs resp).1
        = .ok r5 → r5.provider = "xai") := by
  refine ⟨fun h => ?_, fun h => ?_, fun h => ?_, fun h => ?_, fun h => ?_⟩ <;>
    rw [chat_completion_ok_provider _ _ _ _ _ _ h] <;> rfl

/-- C7, witness: one transport body, five adapters, five tags.  The
OpenAI-shaped fixture also exercises the claim's independence from the
body: the Anthropic and Google adapters still tag their own names. -/
theorem c7_witness :
    NormalizedResult.provider
        { text := .str "4", provider := "openai", model := "m",
          raw_response := openAIFixture, usage := .obj [("total_tokens", .num 5)],
          finish_reason := .str "stop" } = "openai" ∧
    NormalizedResult.provider
        { text := .null, provider := "anthropic", model := "m",
          raw_response := openAIFixture, usage := .obj [("total_tokens", .num 5)],
          finish_reason := .null } = "anthropic" ∧
    NormalizedResult.provider
        { text := .null, provider := "google", model := "m",
          raw_response := openAIFixture, usage := .null,
          finish_reason := .null } = "google" ∧
    NormalizedResult.provider
        { text := .str "4", provider := "deepseek", model := "m",
          raw_response := openAIFixture, usage := .obj [("total_tokens", .num 5)],
          finish_reason := .str "stop" } = "deepseek" ∧
    NormalizedResult.provider
        { text := .str "4", provider := "xai", model := "m",
          raw_response := openAIFixture, usage := .obj [("total_tokens", .num 5)],
          finish_reason := .str "stop" } = "xai" :=
  ⟨(c7_provider_tag "k" "https://b" [("user", "hi")] "m" []
      { status := 200, headers := [], body := some openAIFixture }
      { text := .str "4", provider := "openai", model := "m",
        raw_response := openAIFixture, usage := .obj [("total_tokens", .num 5)],
        finish_reason := .str "stop" }
      { text := .null, provider := "anthropic", model := "m",
        raw_response := openAIFixture, usage := .obj [("total_tokens", .num 5)],
        finish_reason := .null }
      { text := .null, provider := "google", model := "m",
        raw_response := openAIFixture, usage := .null, finish_reason := .null }
      { text := .str "4", provider := "deepseek", model := "m",
        raw_response := openAIFixture, usage := .obj [("total_tokens", .num 5)],
        finish_reason := .str "stop" }
      { text := .str "4", provider := "xai", model := "m",
        raw_response := openAIFixture, usage := .obj [("total_tokens", .num 5)],
        finish_reason := .str "stop" }).1 rfl,
   (c7_provider_tag "k" "https://b" [("user", "hi")] "m" []
      { status := 200, headers := [], body := some openAIFixture }
      { text := .str "4", provider := "openai", model := "m",
        raw_response := openAIFixture, usage := .obj [("total_tokens", .num 5)],
        finish_reason := .str "stop" }
      { text := .null, provider := "anthropic", model := "m",
        raw_response := openAIFixture, usage := .obj [("total_tokens", .num 5)],
        finish_reason := .null }
      { text := .null, provider := "google", model := "m",
        raw_response := openAIFixture, usage := .null, finish_reason := .null }
      { text := .str "4", provider := "deepseek", model := "m",
        raw_response := openAIFixture, usage := .obj [("total_tokens", .num 5)],
        finish_reason := .str "stop" }
      { text := .str "4", provider := "xai", model := "m",
        raw_response := openAIFixture, usage := .obj [("total_tokens", .num 5)],
        finish_reason := .str "stop" }).2.1 rfl,
   (c7_provider_tag "k" "https://b" [("user", "hi")] "m" []
      { status := 200, headers := [], body := some openAIFixture }
      { text := .str "4", provider := "openai", model := "m",
        raw_response := openAIFixture, usage := .obj [("total_tokens", .num 5)],
        finish_reason := .str "stop" }
      { text := .null, provider := "anthropic", model := "m",
        raw_response := openAIFixture, usage := .obj [("total_tokens", .num 5)],
        finish_reason := .null }
      { text := .null, provider := "google", model := "m",
        raw_response := openAIFixture, usage := .null, finish_reason := .null }
      { text := .str "4", provider := "deepseek", model := "m",
        raw_response := openAIFixture, usage := .obj [("total_tokens", .num 5)],
        finish_reason := .str "stop" }
      { text := .str "4", provider := "xai", model := "m",
        raw_response := openAIFixture, usage := .obj [("total_tokens", .num 5)],
        finish_reason := .str "stop" }).2.2.1 rfl,
   (c7_provider_tag "k" "https://b" [("user", "hi")] "m" []
      { status := 200, headers := [], body := some openAIFixture }
      { text := .str "4", provider := "openai", model := "m",
        raw_response := openAIFixture, usage := .obj [("total_tokens", .num 5)],
        finish_reason := .str "stop" }
      { text := .null, provider := "anthropic", model := "m",
        raw_response := openAIFixture, usage := .obj [("total_tokens", .num 5)],
        finish_reason := .null }
      { text := .null, provider := "google", model := "m",
        raw_response := openAIFixture, usage := .null, finish_reason := .null }
      { text := .str "4", provider := "deepseek", model := "m",
        raw_response := openAIFixture, usage := .obj [("total_tokens", .num 5)],
        finish_reason := .str "stop" }
      { text := .str "4", provider := "xai", model := "m",
        raw_response := openAIFixture, usage := .obj [("total_tokens", .num 5)],
        finish_reason := .str "stop" }).2.2.2.1 rfl,
   (c7_provider_tag "k" "https://b" [("user", "hi")] "m" []
      { status := 200, headers := [], body := some openAIFixture }
      { text := .str "4", provider := "openai", model := "m",
        raw_response := openAIFixture, usage := .obj [("total_tokens", .num 5)],
        finish_reason := .str "stop" }
      { text := .null, provider := "anthropic", model := "m",
        raw_response := openAIFixture, usage := .obj [("total_tokens", .num 5)],
        finish_reason := .null }
      { text := .null, provider := "google", model := "m",
        raw_response := openAIFixture, usage := .null, finish_reason := .null }
      { text := .str "4", provider := "deepseek", model := "m",
        raw_response := openAIFixture, usage := .obj [("total_tokens", .num 5)],
        finish_reason := .str "stop" }
      { text := .str "4", provider := "xai", model := "m",
        raw_response := openAIFixture, usage := .obj [("total_tokens", .num 5)],
        finish_reason := .str "stop" }).2.2.2.2 rfl⟩

/-- C1, counterexample: in the dict literal `\x7b"model": model,
"messages": messages, **kwargs\x7d` the `**kwargs` expansion comes last,
so an options mapping that does carry a `model` key overwrites the
vendor-supplied model — the opposite precedence of the claim; and the
Google-shaped payload carries no `model` key at all. -/
theorem c1_counterexample :
    dictFind (openai_build_payload "gpt-4o-mini" [("user", "hi")]
        [("model", .str "caller-override")]) "model"
      = some (.str "caller-override") ∧
    ¬ dictFind (openai_build_payload "gpt-4o-mini" [("user", "hi")]
        [("model", .str "caller-override")]) "model"
      = some (.str "gpt-4o-mini") ∧
    dictFind (google_build_payload "gemini-1.5-flash" [("user", "hi")] []) "model"
      = none := by
  refine ⟨rfl, ?_, rfl⟩
  intro h
  have h1 : Json.str "caller-override" = Json.str "gpt-4o-mini" := Option.some.inj h
  injection h1 with h2
  exact absurd h2 (by decide)

/-- C1, amended: for the four adapters whose payloads carry `model` and
`messages` (OpenAI, Anthropic, DeepSeek, xAI — not Google), those fields
equal the call's arguments for every options mapping that contains
neither key.  Every call through `chat_completion` satisfies that
premise, since Python keyword binding reserves the parameter names
`model` and `messages`; an options mapping that did contain them would
take precedence instead (see the counterexample). -/
theorem c1_required_fields_precedence (model : String) (messages : List ChatMsg)
    (kwargs : List (String × Json))
    (hm : ¬ (kwargs.map Prod.fst).contains "model")
    (hms : ¬ (kwargs.map Prod.fst).contains "messages") :
    (dictFind (openai_build_payload model messages kwargs) "model"
        = some (.str model) ∧
      dictFind (openai_build_payload model messages kwargs) "messages"
        = some (messagesToJson messages)) ∧
    (dictFind (anthropic_build_payload model messages kwargs) "model"
        = some (.str model) ∧
      dictFind (anthropic_build_payload model messages kwargs) "messages"
        = some (messagesToJson messages)) ∧
    (dictFind (deepseek_build_payload model messages kwargs) "model"
        = some (.str model) ∧
      dictFind (deepseek_build_payload model messages kwargs) "messages"
        = some (messagesToJson messages)) ∧
    (dictFind (xai_build_payload model messages kwargs) "model"
        = some (.str model) ∧
      dictFind (xai_build_payload model messages kwargs) "messages"
        = some (messagesToJson messages)) := by
  unfold openai_build_payload anthropic_build_payload deepseek_build_payload
    xai_build_payload
  rw [dictFind_dictMerge_not_mem kwargs _ "model" hm,
    dictFind_dictMerge_not_mem kwargs _ "model" hm,
    dictFind_dictMerge_not_mem kwargs _ "messages" hms,
    dictFind_dictMerge_not_mem kwargs _ "messages" hms]
  exact ⟨⟨rfl, rfl⟩, ⟨rfl, rfl⟩, ⟨rfl, rfl⟩, ⟨rfl, rfl⟩⟩

/-- C1, witness: with an options mapping carrying only `temperature`,
the OpenAI-shaped payload keeps the vendor-supplied model. -/
theorem c1_witness :
    ¬ ([("temperature", Json.num 1)].map Prod.fst).contains "model" ∧
    ¬ ([("temperature", Json.num 1)].map Prod.fst).contains "messages" ∧
    dictFind (openai_build_payload "gpt-4o-mini" [("user", "hi")]
        [("temperature", Json.num 1)]) "model" = some (.str "gpt-4o-mini") :=
  ⟨by decide, by decide,
   (c1_required_fields_precedence "gpt-4o-mini" [("user", "hi")]
     [("temperature", Json.num 1)] (by decide) (by decide)).1.1⟩

theorem anthTypeFilter_mk (bs : List (String × String)) :
    anthTypeFilter (bs.map mkBlock)
      = .ok ((bs.filter fun blk => blk.1 == "text").map mkBlock) := by
  induction bs with
  | nil => rfl
  | cons b rest ih =>
    obtain ⟨t, x⟩ := b
    cases ht : t == "text" with
    | true =>
      simp [anthTypeFilter, mkBlock, pySubscript, dictFind, isTextType, ih, ht,
        except_bind_ok, List.filter_cons]
    | false =>
      simp [anthTypeFilter, mkBlock, pySubscript, dictFind, isTextType, ih, ht,
        except_bind_ok, List.filter_cons]

theorem anthGetTexts_mk (bs : List (String × String)) :
    anthGetTexts (bs.map mkBlock) = .ok (bs.map fun b => Json.str b.2) := by
  induction bs with
  | nil => rfl
  | cons b rest ih =>
    obtain ⟨t, x⟩ := b
    simp [anthGetTexts, mkBlock, pySubscript, dictFind, ih, except_bind_ok]

theorem pyJoinStrs_mk (bs : List (String × String)) :
    pyJoinStrs (bs.map fun b => Json.str b.2) = .ok (joinAll (bs.map Prod.snd)) := by
  induction bs with
  | nil => rfl
  | cons b rest ih =>
    simp [pyJoinStrs, joinAll, ih, except_bind_ok]

/-- C3: on well-formed vendor responses the text extractors return the
documented substring exactly — `choices[0].message.content` verbatim for
the OpenAI- and xAI-shaped adapters, the same string with leading and
trailing whitespace stripped for the DeepSeek-shaped adapter, and for
the Anthropic-shaped adapter the concatenation of the `text` fields of
exactly the content blocks whose `type` is `"text"`.  The surrounding
lists and objects may carry arbitrary further entries. -/
theorem c3_extract_text_wellformed (s1 s2 s3 : String) (b : String × String)
    (bs : List (String × String))
    (msgRest choiceRest topRest : List (String × Json)) (csRest : List Json) :
    openai_extract_text (.obj (("choices", .arr (.obj (("message",
        .obj (("content", .str s1) :: msgRest)) :: choiceRest) :: csRest)) :: topRest))
      = .ok (.str s1) ∧
    xai_extract_text (.obj (("choices", .arr (.obj (("message",
        .obj (("content", .str s2) :: msgRest)) :: choiceRest) :: csRest)) :: topRest))
      = .ok (.str s2) ∧
    deepseek_extract_text (.obj (("choices", .arr (.obj (("message",
        .obj (("content", .str s3) :: msgRest)) :: choiceRest) :: csRest)) :: topRest))
      = .ok (.str (pyStrip s3)) ∧
    anthropic_extract_text (.obj (("content", .arr ((b :: bs).map mkBlock)) :: topRest))
      = .ok (.str (joinAll
          (((b :: bs).filter fun blk => blk.1 == "text").map Prod.snd))) := by
  refine ⟨rfl, rfl, rfl, ?_⟩
  show (anthTypeFilter ((b :: bs).map mkBlock) >>= fun tblocks =>
      anthGetTexts tblocks >>= fun xs =>
      pyJoinStrs xs >>= fun s => (Except.ok (Json.str s) : Except PyErr Json))
    = Except.ok (Json.str (joinAll
        (((b :: bs).filter fun blk => blk.1 == "text").map Prod.snd)))
  rw [anthTypeFilter_mk, except_bind_ok, anthGetTexts_mk, except_bind_ok,
    pyJoinStrs_mk, except_bind_ok]

theorem googlePromptText_concat (messages : List ChatMsg) (acc : String) :
    messages.foldl (fun acc m => if m.1 == "user" then acc ++ m.2 ++ "\n" else acc) acc
      = acc ++ concatNl ((messages.filter fun m => m.1 == "user").map Prod.snd) := by
  induction messages generalizing acc with
  | nil => simp [concatNl, String.append_empty]
  | cons m rest ih =>
    cases hm : m.1 == "user" with
    | true =>
      simp only [List.foldl_cons, List.filter_cons, hm, if_pos, List.map_cons,
        concatNl, ih (acc ++ m.2 ++ "\n")]
      simp [String.append_assoc]
    | false =>
      simp only [List.foldl_cons, List.filter_cons, hm, if_neg, Bool.false_eq_true,
        not_false_eq_true, ih acc]

theorem concatNl_eq_spec (u : String) (us : List String) :
    concatNl (u :: us) = specNewlineJoin (u :: us) ++ "\n" := by
  induction us generalizing u with
  | nil =>
    show u ++ "\n" ++ concatNl [] = u ++ "\n"
    rw [show concatNl [] = "" from rfl, String.append_empty]
  | cons u2 rest ih =>
    show u ++ "\n" ++ concatNl (u2 :: rest) = specNewlineJoin (u :: u2 :: rest) ++ "\n"
    rw [ih u2]
    show u ++ "\n" ++ (specNewlineJoin (u2 :: rest) ++ "\n")
      = u ++ "\n" ++ specNewlineJoin (u2 :: rest) ++ "\n"
    rw [String.append_assoc (u ++ "\n")]

theorem pyStripChars_append_newline (cs : List Char) :
    pyStripChars (cs ++ ['\n']) = pyStripChars cs := by
  unfold pyStripChars
  rw [List.dropWhile_append]
  by_cases h : (cs.dropWhile isPyWs).isEmpty
  · rw [if_pos h]
    rw [List.isEmpty_iff] at h
    rw [h]
    rfl
  · rw [if_neg h]
    rw [List.reverse_append]
    show (List.dropWhile isPyWs ('\n' :: (List.dropWhile isPyWs cs).reverse)).reverse
      = (List.dropWhile isPyWs (List.dropWhile isPyWs cs).reverse).reverse
    rw [List.dropWhile_cons_of_pos (by rfl)]

theorem pyStrip_append_newline (s : String) : pyStrip (s ++ "\n") = pyStrip s := by
  cases s with
  | mk cs =>
    show String.mk (pyStripChars (cs ++ ['\n'])) = String.mk (pyStripChars cs)
    rw [pyStripChars_append_newline]

/-- The Google prompt accumulation equals the spec's newline-join up to
the final strip. -/
theorem googlePromptText_spec (messages : List ChatMsg) :
    pyStrip (googlePromptText messages)
      = pyStrip (specNewlineJoin
          ((messages.filter fun m => m.1 == "user").map Prod.snd)) := by
  unfold googlePromptText
  rw [googlePromptText_concat messages ""]
  rw [show ∀ t : String, "" ++ t = t from fun t => by
    cases t with
    | mk ds => rfl]
  cases hus : (messages.filter fun m => m.1 == "user").map Prod.snd with
  | nil => rfl
  | cons u us =>
    rw [concatNl_eq_spec, pyStrip_append_newline]

/-- C8, counterexample: `_build_payload` strips leading and trailing
whitespace off the joined prompt (`prompt_text.strip()`), so for the
single user message `" hi"` the payload text is `"hi"`, not the bare
newline-join `" hi"` the claim describes. -/
theorem c8_counterexample :
    dictFind (google_build_payload "gemini-1.5-flash" [("user", " hi")] []) "contents"
      = some (.arr [.obj [("parts", .arr [.obj [("text", .str "hi")]])]]) ∧
    ¬ dictFind (google_build_payload "gemini-1.5-flash" [("user", " hi")] []) "contents"
      = some (.arr [.obj [("parts", .arr [.obj [("text",
          .str (specNewlineJoin [" hi"]))]])]]) := by
  refine ⟨rfl, ?_⟩
  intro h
  have h1 : Json.arr [.obj [("parts", .arr [.obj [("text", .str "hi")]])]]
      = .arr [.obj [("parts", .arr [.obj [("text", .str " hi")]])]] :=
    Option.some.inj h
  injection h1 with h2
  injection List.head_eq_of_cons_eq h2 with h3
  injection List.head_eq_of_cons_eq h3 with hk hv
  injection hv with h4
  injection List.head_eq_of_cons_eq h4 with h5
  injection List.head_eq_of_cons_eq h5 with hk2 hv2
  injection hv2 with h6
  exact absurd h6 (by decide)

/-- C8, amended: the Google-shaped payload's `contents` is a single
entry with a single part whose text is the newline-joined concatenation
of exactly the user-role message contents, in order, with leading and
trailing whitespace then stripped from the joined result; other roles
contribute nothing. -/
theorem c8_google_contents (model : String) (messages : List ChatMsg) :
    dictFind (google_build_payload model messages []) "contents"
      = some (.arr [.obj [("parts", .arr [.obj [("text",
          .str (pyStrip (specNewlineJoin
            ((messages.filter fun m => m.1 == "user").map Prod.snd))))]])]]) := by
  show some (Json.arr [.obj [("parts", .arr [.obj [("text",
      .str (pyStrip (googlePromptText messages)))]])]]) = _
  rw [googlePromptText_spec]

/-- C5: the credentials placed in the request headers are logged in
plaintext.  `_make_request` emits `logger.debug(headers)` with no
redaction whatsoever, so on a successful OpenAI-shaped call the log
lines contain `Bearer sk-secret-key` verbatim, and on an
Anthropic-shaped call the raw `x-api-key` value — contradicting the
requirement that credentials never appear in plaintext in emitted
logs. -/
theorem c5_api_key_logged :
    ((chat_completion (openAIProvider "sk-secret-key" "https://api.openai.com/v1")
        [("user", "hi")] "gpt-4o-mini" []
        { status := 200, headers := [], body := some openAIFixture }).2.any
      (fun line => strContains line "Bearer sk-secret-key")) = true ∧
    ((chat_completion (anthropicProvider "sk-ant-secret" "https://api.anthropic.com/v1")
        [("user", "hi")] "claude-3-opus-20240229" []
        { status := 200, headers := [], body := some openAIFixture }).2.any
      (fun line => strContains line "sk-ant-secret")) = true :=
  ⟨rfl, rfl⟩

example : pyStrip "  a \nb \n" = "a \nb" := by decide
example : providerTag "OpenAIProvider" = "openai" := by decide
example : providerTag "xAIProvider" = "xai" := by decide
example : strContains "abc Bearer k1 z" "Bearer k1" = true := by decide
example : dictFind (dictMerge [("model", .str "a")] [("model", .str "b")]) "model"
    = some (.str "b") := rfl
